import Mathlib

/-!
# Verification of the token package (JWT and PASETO makers)

Shallow embedding of the Go `token` package: `JWTMaker` (jwt_maker.go),
`PasetoMaker` (paseto_maker.go) and the shared `Payload` claims model.

Modelling conventions:
* Go byte strings (`string` / `[]byte` key material) are `List Nat` (byte
  sequences); `len` is `List.length`.
* Time (`time.Time`) is `Int`; `time.Duration` is `Int`; `t1.After t2` is
  `t2 < t1`.  The current time is passed explicitly to each operation.
* Cryptography is symbolic (ideal): an HMAC signature is a record of the
  algorithm, the key and the signed claims, and verification is equality of
  records; a PASETO v2 ciphertext is a record of the key and the encrypted
  payload, and authenticated decryption succeeds exactly on the matching key
  of the cipher's key size.  This idealisation assumes no forgeries or
  collisions, which is the intent of the source's use of HMAC-SHA-256 and
  XChaCha20-Poly1305.
* Go's multiple return values `(token, payload, err)` / `(payload, err)`
  become product types with `Option` components, mirroring nilability.
* The random token-identifier generator (`uuid.NewRandom`) is an injected
  dependency: its outcome (`Except String Nat`) is a parameter.
-/

namespace TokenPkg

/-- Go error values that flow through the token package, as distinguishable
symbols.  `errInvalidToken` and `errExpiredToken` are the package's exported
sentinel errors; the others are the distinct error values produced by
dependencies (uuid generation, jwt-go signature check, chacha20poly1305
cipher) and by `fmt.Errorf` in the constructors. -/
inductive GoErr where
  | errInvalidToken
  | errExpiredToken
  | idGenErr (msg : String)
  | sigInvalidErr
  | cipherErr
  | configErr (minSize : Nat)
  deriving DecidableEq, Repr

/-- Key material: a Go byte string. -/
abbrev Key := List Nat

/-- The claims record.

Modelled from the spec: `payload.go` (the `Payload` struct) is not under
`src/`; only its callers are.  Per the spec's data model, a payload holds a
unique random identifier, a username, a role, the creation timestamp
`issuedAt` and the expiry timestamp `expiredAt`. -/
structure Payload where
  id : Nat
  username : String
  role : String
  issuedAt : Int
  expiredAt : Int
  deriving DecidableEq, Repr

/-- Modelled from the spec: `NewPayload` (in the missing `payload.go`)
generates a random identifier (which can fail; the failure is propagated
as-is and no payload is produced), stamps `issuedAt` with the current time
and sets `expiredAt = issuedAt + duration`.  The identifier generator's
outcome is the `idGen` parameter. -/
def NewPayload (username role : String) (duration : Int)
    (idGen : Except String Nat) (now : Int) : Except GoErr Payload :=
  match idGen with
  | .error msg => .error (.idGenErr msg)
  | .ok tokenID => .ok ⟨tokenID, username, role, now, now + duration⟩

/-- Modelled from the spec: `Payload.Valid` (in the missing `payload.go`)
derives validity from the stored timestamps — a payload is valid iff the
current time is at or before `expiredAt`, and an expired payload yields the
sentinel `ErrExpiredToken`. -/
def Payload.Valid (p : Payload) (now : Int) : Except GoErr Unit :=
  if p.expiredAt < now then .error .errExpiredToken else .ok ()

/-! ## JWT maker (jwt_maker.go) -/

/-- JWT signing algorithms relevant to the source: the HMAC family that
`jwt.SigningMethodHMAC` covers, plus representatives of non-HMAC methods
that a hostile token header may declare. -/
inductive Alg where
  | HS256 | HS384 | HS512 | RS256 | algNone
  deriving DecidableEq, Repr

/-- Whether the method type-asserts to `*jwt.SigningMethodHMAC`. -/
def Alg.isHMAC : Alg → Bool
  | .HS256 | .HS384 | .HS512 => true
  | .RS256 | .algNone => false

/-- A symbolic HMAC signature: it binds the algorithm it was produced
under, the key, and the exact claims bytes it signs. -/
structure Sig where
  alg : Alg
  key : Key
  msg : Payload
  deriving DecidableEq, Repr

/-- A JWT compact serialization: either a string that does not parse as
`header.payload.signature` (including the empty string), or a well-formed
token carrying a declared algorithm, claims, and a signature value. -/
inductive JWTStr where
  | malformed (s : String)
  | tok (alg : Alg) (claims : Payload) (sig : Sig)
  deriving DecidableEq, Repr

/-- jwt-go's `*jwt.ValidationError`: only its `Inner` field is observed by
the source (`errors.Is(verr.Inner, ErrExpiredToken)`), so the embedding
keeps exactly that. -/
structure ValidationError where
  inner : Option GoErr
  deriving DecidableEq, Repr

/-- JWTMaker is a JSON Web Token maker holding the secret key. -/
structure JWTMaker where
  secretKey : Key
  deriving DecidableEq, Repr

def minSecretKeySize : Nat := 32

/-- Constructor `NewJWTMaker`: rejects keys shorter than `minSecretKeySize`, else
returns the maker. -/
def NewJWTMaker (secretKey : Key) : Option JWTMaker × Option GoErr :=
  if secretKey.length < minSecretKeySize then
    (none, some (.configErr minSecretKeySize))
  else
    (some ⟨secretKey⟩, none)

/-- The `keyFunc` closure of `JWTMaker.VerifyToken`: type-asserts the
token's method to `*jwt.SigningMethodHMAC`, returning `ErrInvalidToken` on
mismatch and the secret key bytes otherwise. -/
def keyFunc (maker : JWTMaker) (alg : Alg) : Except GoErr Key :=
  if alg.isHMAC then .ok maker.secretKey else .error .errInvalidToken

/-- Symbolic HMAC verification, as `method.Verify` does under the token's
declared HMAC variant with the key returned by `keyFunc`: the signature
must have been produced under that algorithm, with that key, over exactly
these claims. -/
def hmacVerify (alg : Alg) (key : Key) (claims : Payload) (sig : Sig) : Bool :=
  sig = ⟨alg, key, claims⟩

/-- jwt-go's `Parser.ParseWithClaims` specialised to `&Payload{}` claims, as
dgrijalva/jwt-go v3 behaves:
1. a structurally malformed string fails with a `ValidationError` whose
   `Inner` is nil;
2. `keyFunc` runs; its error is wrapped as the `Inner` of a
   `ValidationError` and returned at once;
3. `Claims.Valid()` runs; its error (here `ErrExpiredToken`) becomes the
   `Inner`;
4. the signature is verified; on failure the signature error *overwrites*
   `Inner`;
5. the parse succeeds iff both the claims validation and the signature
   check passed. -/
def parseWithClaims (s : JWTStr) (maker : JWTMaker) (now : Int) :
    Except ValidationError Payload :=
  match s with
  | .malformed _ => .error ⟨none⟩
  | .tok alg claims sig =>
    match keyFunc maker alg with
    | .error e => .error ⟨some e⟩
    | .ok key =>
      if hmacVerify alg key claims sig then
        match claims.Valid now with
        | .error e => .error ⟨some e⟩
        | .ok _ => .ok claims
      else
        .error ⟨some .sigInvalidErr⟩

/-- Method `JWTMaker.CreateToken`: builds the payload (propagating its construction
error with an empty token string), then signs it with HS256 under the
secret key.  For an HMAC method with byte-slice key, `SignedString` cannot
fail, so the success branch returns no error. -/
def JWTMaker.CreateToken (maker : JWTMaker) (username role : String)
    (duration : Int) (idGen : Except String Nat) (now : Int) :
    JWTStr × Option Payload × Option GoErr :=
  match NewPayload username role duration idGen now with
  | .error e => (.malformed "", none, some e)
  | .ok payload =>
    (.tok .HS256 payload ⟨.HS256, maker.secretKey, payload⟩, some payload, none)

/-- Method `JWTMaker.VerifyToken`: parses with `keyFunc`; on a parse error it
returns `ErrExpiredToken` when the validation error's `Inner` is
`ErrExpiredToken` and `ErrInvalidToken` otherwise; on success it returns
the claims (the type assertion to `*Payload` always succeeds because
`&Payload{}` was passed in). -/
def JWTMaker.VerifyToken (maker : JWTMaker) (token : JWTStr) (now : Int) :
    Option Payload × Option GoErr :=
  match parseWithClaims token maker now with
  | .error verr =>
    if verr.inner = some .errExpiredToken then (none, some .errExpiredToken)
    else (none, some .errInvalidToken)
  | .ok payload => (some payload, none)

/-! ## PASETO maker (paseto_maker.go) -/

/-- A PASETO v2.local token: either a string that fails structural decoding,
or an authenticated ciphertext binding the symmetric key it was encrypted
under and the payload it encrypts. -/
inductive PasetoStr where
  | malformed (s : String)
  | ct (key : Key) (payload : Payload)
  deriving DecidableEq, Repr

/-- Constant `chacha20poly1305.KeySize`. -/
def KeySize : Nat := 32

/-- PasetoMaker is a PASETO token maker holding the symmetric key bytes. -/
structure PasetoMaker where
  symmetricKey : Key
  deriving DecidableEq, Repr

/-- Library function `paseto.V2.Encrypt`: constructing the XChaCha20-Poly1305 cipher fails
unless the key is exactly `KeySize` bytes; otherwise the payload is
encrypted under the key.  On failure the returned token string is empty. -/
def pasetoEncrypt (key : Key) (payload : Payload) : Except GoErr PasetoStr :=
  if key.length = KeySize then .ok (.ct key payload) else .error .cipherErr

/-- Library function `paseto.V2.Decrypt`: authenticated decryption succeeds exactly when the
token is a well-formed ciphertext produced under this very key and the key
has the cipher's key size; any structural, key-size or authentication
failure is an error. -/
def pasetoDecrypt (token : PasetoStr) (key : Key) : Except GoErr Payload :=
  match token with
  | .malformed _ => .error .cipherErr
  | .ct k payload =>
    if key.length = KeySize ∧ k = key then .ok payload else .error .cipherErr

/-- Method `PasetoMaker.CreateToken`: builds the payload (returning the nil payload
and the error verbatim with an empty token string on failure), then
encrypts it; the result of `Encrypt` is returned together with the payload
and `Encrypt`'s error. -/
def PasetoMaker.CreateToken (maker : PasetoMaker) (username role : String)
    (duration : Int) (idGen : Except String Nat) (now : Int) :
    PasetoStr × Option Payload × Option GoErr :=
  match NewPayload username role duration idGen now with
  | .error e => (.malformed "", none, some e)
  | .ok payload =>
    match pasetoEncrypt maker.symmetricKey payload with
    | .error e => (.malformed "", some payload, some e)
    | .ok token => (token, some payload, none)

/-- Method `PasetoMaker.VerifyToken`: decrypts with the symmetric key, mapping any
decryption failure to `ErrInvalidToken`; then checks `payload.Valid()`,
returning its error (ErrExpiredToken) when it fails, the payload
otherwise. -/
def PasetoMaker.VerifyToken (maker : PasetoMaker) (token : PasetoStr)
    (now : Int) : Option Payload × Option GoErr :=
  match pasetoDecrypt token maker.symmetricKey with
  | .error _ => (none, some .errInvalidToken)
  | .ok payload =>
    match payload.Valid now with
    | .error e => (none, some e)
    | .ok _ => (some payload, none)

/-- Constructor `NewPasetoMaker`: rejects keys shorter than `chacha20poly1305.KeySize`,
else returns the maker over the key bytes. -/
def NewPasetoMaker (symmetricKey : Key) : Option PasetoMaker × Option GoErr :=
  if symmetricKey.length < KeySize then
    (none, some (.configErr KeySize))
  else
    (some ⟨symmetricKey⟩, none)

/-! ## Derived characterisations used by the claims -/

/-- A JWT token is structurally and cryptographically valid for a maker:
well-formed, declaring an HMAC method, with a signature produced under the
declared method, the maker's key, and exactly its claims. -/
def JWTMaker.authentic (maker : JWTMaker) (token : JWTStr) : Prop :=
  ∃ alg claims,
    token = .tok alg claims ⟨alg, maker.secretKey, claims⟩ ∧ alg.isHMAC = true

/-- A PASETO token is structurally and cryptographically valid for a maker:
a well-formed ciphertext under the maker's key, the key having the cipher's
key size. -/
def PasetoMaker.authentic (maker : PasetoMaker) (token : PasetoStr) : Prop :=
  ∃ payload,
    token = .ct maker.symmetricKey payload ∧
      maker.symmetricKey.length = KeySize

/-- The expiry timestamp a well-formed token carries. -/
def JWTStr.expiry : JWTStr → Option Int
  | .malformed _ => none
  | .tok _ claims _ => some claims.expiredAt

/-- The expiry timestamp a well-formed PASETO token carries. -/
def PasetoStr.expiry : PasetoStr → Option Int
  | .malformed _ => none
  | .ct _ payload => some payload.expiredAt

/-! ## Sample inputs used by witnesses and counterexamples -/

/-- A 32-byte key. -/
def sampleKey : Key := List.replicate 32 97

/-- A second 32-byte key, different from `sampleKey`. -/
def sampleKey2 : Key := List.replicate 32 98

/-- A 31-byte key (too short for either constructor). -/
def shortKey : Key := List.replicate 31 97

/-- A 33-byte key (accepted by the constructors, longer than the cipher's
key size). -/
def longKey : Key := List.replicate 33 97

/-- A sample payload expiring at time 5. -/
def samplePayload : Payload := ⟨0, "u", "r", 0, 5⟩

/-! ## Helper evaluation lemmas -/

/-- Evaluation of `JWTMaker.VerifyToken` on a well-formed token, by the
three checks the code performs: HMAC method, signature, expiry. -/
theorem jwt_verify_eval (jm : JWTMaker) (alg : Alg) (claims : Payload)
    (sig : Sig) (now : Int) :
    jm.VerifyToken (.tok alg claims sig) now =
      if alg.isHMAC then
        if sig = (⟨alg, jm.secretKey, claims⟩ : Sig) then
          if claims.expiredAt < now then (none, some .errExpiredToken)
          else (some claims, none)
        else (none, some .errInvalidToken)
      else (none, some .errInvalidToken) := by
  unfold JWTMaker.VerifyToken parseWithClaims keyFunc hmacVerify Payload.Valid
  by_cases halg : alg.isHMAC
  · by_cases hsig : sig = (⟨alg, jm.secretKey, claims⟩ : Sig)
    · by_cases hexp : claims.expiredAt < now <;> simp [halg, hsig, hexp]
    · simp [halg, hsig]
  · simp [halg]

/-- Evaluation of `JWTMaker.VerifyToken` on a malformed string. -/
theorem jwt_verify_malformed (jm : JWTMaker) (s : String) (now : Int) :
    jm.VerifyToken (.malformed s) now = (none, some .errInvalidToken) := rfl

/-- Evaluation of `PasetoMaker.VerifyToken` on a well-formed ciphertext, by
the checks the code performs: authenticated decryption, then expiry. -/
theorem paseto_verify_eval (pm : PasetoMaker) (k : Key) (payload : Payload)
    (now : Int) :
    pm.VerifyToken (.ct k payload) now =
      if pm.symmetricKey.length = KeySize ∧ k = pm.symmetricKey then
        if payload.expiredAt < now then (none, some .errExpiredToken)
        else (some payload, none)
      else (none, some .errInvalidToken) := by
  unfold PasetoMaker.VerifyToken pasetoDecrypt Payload.Valid
  by_cases hk : pm.symmetricKey.length = KeySize ∧ k = pm.symmetricKey
  · by_cases hexp : payload.expiredAt < now <;> simp [hk, hexp]
  · simp [hk]

/-- Evaluation of `PasetoMaker.VerifyToken` on a malformed string. -/
theorem paseto_verify_malformed (pm : PasetoMaker) (s : String) (now : Int) :
    pm.VerifyToken (.malformed s) now = (none, some .errInvalidToken) := rfl

/-- Evaluation of `JWTMaker.CreateToken` when identifier generation
succeeds. -/
theorem jwt_create_ok (jm : JWTMaker) (u r : String) (d : Int) (i : Nat)
    (now : Int) :
    jm.CreateToken u r d (.ok i) now =
      (.tok .HS256 ⟨i, u, r, now, now + d⟩
         ⟨.HS256, jm.secretKey, ⟨i, u, r, now, now + d⟩⟩,
       some ⟨i, u, r, now, now + d⟩, none) := rfl

/-- Evaluation of `PasetoMaker.CreateToken` when identifier generation
succeeds and the key has the cipher's exact key size. -/
theorem paseto_create_ok (pm : PasetoMaker) (u r : String) (d : Int) (i : Nat)
    (now : Int) (hk : pm.symmetricKey.length = KeySize) :
    pm.CreateToken u r d (.ok i) now =
      (.ct pm.symmetricKey ⟨i, u, r, now, now + d⟩,
       some ⟨i, u, r, now, now + d⟩, none) := by
  unfold PasetoMaker.CreateToken NewPayload pasetoEncrypt
  simp [hk]

/-- Evaluation of `PasetoMaker.CreateToken` when the key does not have the
cipher's exact key size: encryption fails, the token string is empty, the
payload and the cipher error are returned. -/
theorem paseto_create_badkey (pm : PasetoMaker) (u r : String) (d : Int)
    (i : Nat) (now : Int) (hk : pm.symmetricKey.length ≠ KeySize) :
    pm.CreateToken u r d (.ok i) now =
      (.malformed "", some ⟨i, u, r, now, now + d⟩, some .cipherErr) := by
  unfold PasetoMaker.CreateToken NewPayload pasetoEncrypt
  simp [hk]

/-! ## Claim theorems -/

/-- C3: for every key shorter than 32 bytes, both `NewJWTMaker` and
`NewPasetoMaker` return an error and a nil maker; for every key of length
at least 32 bytes, construction succeeds. -/
theorem maker_key_size_check (key : Key) :
    (key.length < 32 →
      NewJWTMaker key = (none, some (.configErr minSecretKeySize)) ∧
      NewPasetoMaker key = (none, some (.configErr KeySize))) ∧
    (32 ≤ key.length →
      NewJWTMaker key = (some ⟨key⟩, none) ∧
      NewPasetoMaker key = (some ⟨key⟩, none)) := by
  unfold NewJWTMaker NewPasetoMaker minSecretKeySize KeySize
  refine ⟨fun h => ?_, fun h => ?_⟩
  · rw [if_pos h, if_pos h]; exact ⟨rfl, rfl⟩
  · rw [if_neg (by omega), if_neg (by omega)]; exact ⟨rfl, rfl⟩

/-- Witness for C3: a 31-byte key is rejected by both constructors; a
32-byte key is accepted by both. -/
theorem maker_key_size_check_witness :
    (NewJWTMaker shortKey = (none, some (.configErr minSecretKeySize)) ∧
      NewPasetoMaker shortKey = (none, some (.configErr KeySize))) ∧
    (NewJWTMaker sampleKey = (some ⟨sampleKey⟩, none) ∧
      NewPasetoMaker sampleKey = (some ⟨sampleKey⟩, none)) :=
  ⟨(maker_key_size_check shortKey).1 (by decide),
   (maker_key_size_check sampleKey).2 (by decide)⟩

/-- Counterexample to C5 as stated: the claim covers every algorithm other
than HS256, but the source only type-asserts `*jwt.SigningMethodHMAC`,
which the whole HMAC family satisfies.  A token declaring HS384, correctly
signed under HS384 with the maker's configured key, is not rejected: it
verifies successfully. -/
theorem wrong_alg_rejected_counterexample :
    JWTMaker.VerifyToken ⟨sampleKey⟩
        (.tok .HS384 samplePayload ⟨.HS384, sampleKey, samplePayload⟩) 0 =
      (some samplePayload, none) ∧
    JWTMaker.VerifyToken ⟨sampleKey⟩
        (.tok .HS384 samplePayload ⟨.HS384, sampleKey, samplePayload⟩) 0 ≠
      (none, some GoErr.errInvalidToken) := by
  decide

/-- C5 (amended): a token whose header declares a signing algorithm outside
the HMAC family (the `*jwt.SigningMethodHMAC` type assertion fails, e.g.
RS256 or "none") is rejected with `ErrInvalidToken` by
`JWTMaker.VerifyToken`, even when its signature verifies under the declared
algorithm with the configured key.  Tokens declaring the HMAC variants
HS384/HS512 pass the method check and verify when correctly signed with the
configured key — see the counterexample. -/
theorem wrong_alg_rejected (maker : JWTMaker) (alg : Alg) (claims : Payload)
    (now : Int) (h : alg.isHMAC = false) :
    maker.VerifyToken (.tok alg claims ⟨alg, maker.secretKey, claims⟩) now =
      (none, some .errInvalidToken) := by
  rw [jwt_verify_eval, if_neg (by simp [h])]

/-- Witness for C5: an RS256-labelled token signed over the maker's own key
and claims is still rejected. -/
theorem wrong_alg_rejected_witness :
    JWTMaker.VerifyToken ⟨sampleKey⟩
        (.tok .RS256 samplePayload ⟨.RS256, sampleKey, samplePayload⟩) 0 =
      (none, some .errInvalidToken) :=
  wrong_alg_rejected ⟨sampleKey⟩ .RS256 samplePayload 0 (by decide)

/-- C6: when payload construction fails, `CreateToken` on either maker
returns that error verbatim together with an empty token string and no
payload. -/
theorem create_error_propagated (jm : JWTMaker) (pm : PasetoMaker)
    (username role : String) (duration : Int) (now : Int) (msg : String) :
    jm.CreateToken username role duration (.error msg) now =
      (.malformed "", none, some (.idGenErr msg)) ∧
    pm.CreateToken username role duration (.error msg) now =
      (.malformed "", none, some (.idGenErr msg)) :=
  ⟨rfl, rfl⟩

/-- C8: the validity check succeeds iff the current time is at or before
`expiredAt`, and fails with `ErrExpiredToken` iff the current time is past
`expiredAt`.  Validity is computed from the stored timestamps (the
`Payload` record has no validity field). -/
theorem payload_valid_iff (p : Payload) (now : Int) :
    (p.Valid now = .ok () ↔ now ≤ p.expiredAt) ∧
    (p.Valid now = .error .errExpiredToken ↔ p.expiredAt < now) := by
  unfold Payload.Valid
  by_cases h : p.expiredAt < now <;> simp [h]
  all_goals omega

/-- Witness for C8 at a concrete payload and time. -/
theorem payload_valid_iff_witness :
    (samplePayload.Valid 3 = .ok () ↔ (3 : Int) ≤ samplePayload.expiredAt) ∧
    (samplePayload.Valid 3 = .error .errExpiredToken ↔
      samplePayload.expiredAt < 3) :=
  payload_valid_iff samplePayload 3

/-- C9: `VerifyToken` on either maker returns exactly one of a payload with
a nil error, or a nil payload with an error — never both, never neither. -/
theorem verify_payload_xor_error (jm : JWTMaker) (pm : PasetoMaker)
    (jt : JWTStr) (pt : PasetoStr) (now : Int) :
    ((∃ p, jm.VerifyToken jt now = (some p, none)) ∨
      ∃ e, jm.VerifyToken jt now = (none, some e)) ∧
    ((∃ p, pm.VerifyToken pt now = (some p, none)) ∨
      ∃ e, pm.VerifyToken pt now = (none, some e)) := by
  constructor
  · cases jt with
    | malformed s => exact .inr ⟨_, jwt_verify_malformed jm s now⟩
    | tok alg claims sig =>
      rw [jwt_verify_eval]
      by_cases halg : alg.isHMAC
      · by_cases hsig : sig = (⟨alg, jm.secretKey, claims⟩ : Sig)
        · by_cases hexp : claims.expiredAt < now
          · exact .inr ⟨.errExpiredToken, by simp [halg, hsig, hexp]⟩
          · exact .inl ⟨claims, by simp [halg, hsig, hexp]⟩
        · exact .inr ⟨.errInvalidToken, by simp [halg, hsig]⟩
      · exact .inr ⟨.errInvalidToken, by simp [halg]⟩
  · cases pt with
    | malformed s => exact .inr ⟨_, paseto_verify_malformed pm s now⟩
    | ct k payload =>
      rw [paseto_verify_eval]
      by_cases hk : pm.symmetricKey.length = KeySize ∧ k = pm.symmetricKey
      · by_cases hexp : payload.expiredAt < now
        · exact .inr ⟨.errExpiredToken, by simp [hk, hexp]⟩
        · exact .inl ⟨payload, by simp [hk, hexp]⟩
      · exact .inr ⟨.errInvalidToken, by simp [hk]⟩

/-- Witness for C9 at concrete makers and token strings. -/
theorem verify_payload_xor_error_witness :
    ((∃ p, JWTMaker.VerifyToken ⟨sampleKey⟩ (.malformed "x") 0 = (some p, none)) ∨
      ∃ e, JWTMaker.VerifyToken ⟨sampleKey⟩ (.malformed "x") 0 = (none, some e)) ∧
    ((∃ p, PasetoMaker.VerifyToken ⟨sampleKey⟩ (.malformed "x") 0 = (some p, none)) ∨
      ∃ e, PasetoMaker.VerifyToken ⟨sampleKey⟩ (.malformed "x") 0 = (none, some e)) :=
  verify_payload_xor_error ⟨sampleKey⟩ ⟨sampleKey⟩ (.malformed "x") (.malformed "x") 0

/-- C10: `NewPasetoMaker` accepts every key strictly longer than 32 bytes —
the construction-time check is only a lower bound, not an exact-size
check. -/
theorem paseto_maker_accepts_long_keys (key : Key) (h : KeySize < key.length) :
    NewPasetoMaker key = (some ⟨key⟩, none) := by
  unfold NewPasetoMaker
  rw [if_neg (by omega)]

/-- Witness for C10: a 33-byte key is accepted. -/
theorem paseto_maker_accepts_long_keys_witness :
    NewPasetoMaker longKey = (some ⟨longKey⟩, none) :=
  paseto_maker_accepts_long_keys longKey (by decide)

/-- C2: for every token and either maker, a verification error is always
`ErrInvalidToken` or `ErrExpiredToken`, and it is `ErrExpiredToken` exactly
when the token is structurally and cryptographically valid (authentic) but
the current time is past its `expiredAt`. -/
theorem verify_error_classification (jm : JWTMaker) (pm : PasetoMaker)
    (jt : JWTStr) (pt : PasetoStr) (now : Int) :
    (∀ e, (jm.VerifyToken jt now).2 = some e →
      e = GoErr.errInvalidToken ∨ e = GoErr.errExpiredToken) ∧
    ((jm.VerifyToken jt now).2 = some GoErr.errExpiredToken ↔
      jm.authentic jt ∧ ∃ x, jt.expiry = some x ∧ x < now) ∧
    (∀ e, (pm.VerifyToken pt now).2 = some e →
      e = GoErr.errInvalidToken ∨ e = GoErr.errExpiredToken) ∧
    ((pm.VerifyToken pt now).2 = some GoErr.errExpiredToken ↔
      pm.authentic pt ∧ ∃ x, pt.expiry = some x ∧ x < now) := by
  refine ⟨?_, ?_, ?_, ?_⟩
  · intro e he
    cases jt with
    | malformed s =>
      rw [jwt_verify_malformed] at he
      simp at he
      exact .inl he.symm
    | tok alg claims sig =>
      rw [jwt_verify_eval] at he
      by_cases halg : alg.isHMAC
      · by_cases hsig : sig = (⟨alg, jm.secretKey, claims⟩ : Sig)
        · by_cases hexp : claims.expiredAt < now
          · simp [halg, hsig, hexp] at he
            exact .inr he.symm
          · simp [halg, hsig, hexp] at he
        · simp [halg, hsig] at he
          exact .inl he.symm
      · simp [halg] at he
        exact .inl he.symm
  · cases jt with
    | malformed s =>
      rw [jwt_verify_malformed]
      simp [JWTMaker.authentic]
    | tok alg claims sig =>
      rw [jwt_verify_eval]
      constructor
      · intro h
        by_cases halg : alg.isHMAC
        · by_cases hsig : sig = (⟨alg, jm.secretKey, claims⟩ : Sig)
          · by_cases hexp : claims.expiredAt < now
            · exact ⟨⟨alg, claims, by rw [hsig], halg⟩,
                claims.expiredAt, rfl, hexp⟩
            · simp [halg, hsig, hexp] at h
          · simp [halg, hsig] at h
        · simp [halg] at h
      · rintro ⟨⟨alg2, claims2, heq, halg2⟩, x, hx, hlt⟩
        injection heq with h1 h2 h3
        subst h1
        subst h2
        subst h3
        simp only [JWTStr.expiry, Option.some.injEq] at hx
        subst hx
        simp [halg2, hlt]
  · intro e he
    cases pt with
    | malformed s =>
      rw [paseto_verify_malformed] at he
      simp at he
      exact .inl he.symm
    | ct k payload =>
      rw [paseto_verify_eval] at he
      by_cases hk : pm.symmetricKey.length = KeySize ∧ k = pm.symmetricKey
      · by_cases hexp : payload.expiredAt < now
        · simp [hk, hexp] at he
          exact .inr he.symm
        · simp [hk, hexp] at he
      · simp [hk] at he
        exact .inl he.symm
  · cases pt with
    | malformed s =>
      rw [paseto_verify_malformed]
      simp [PasetoMaker.authentic]
    | ct k payload =>
      rw [paseto_verify_eval]
      constructor
      · intro h
        by_cases hk : pm.symmetricKey.length = KeySize ∧ k = pm.symmetricKey
        · by_cases hexp : payload.expiredAt < now
          · exact ⟨⟨payload, by rw [hk.2], hk.1⟩, payload.expiredAt, rfl, hexp⟩
          · simp [hk, hexp] at h
        · simp [hk] at h
      · rintro ⟨⟨payload2, heq, hlen⟩, x, hx, hlt⟩
        injection heq with h1 h2
        subst h1
        subst h2
        simp only [PasetoStr.expiry, Option.some.injEq] at hx
        subst hx
        simp [hlen, hlt]

/-- Witness for C2: on an authentic token that expired at time 0, verified
at time 1, both makers report `ErrExpiredToken`; the error of a malformed
string is one of the two sentinels. -/
theorem verify_error_classification_witness :
    (JWTMaker.VerifyToken ⟨sampleKey⟩
        (.tok .HS256 ⟨0, "u", "r", 0, 0⟩
          ⟨.HS256, sampleKey, ⟨0, "u", "r", 0, 0⟩⟩) 1).2 =
      some GoErr.errExpiredToken ∧
    (PasetoMaker.VerifyToken ⟨sampleKey⟩ (.ct sampleKey ⟨0, "u", "r", 0, 0⟩) 1).2 =
      some GoErr.errExpiredToken ∧
    (GoErr.errInvalidToken = GoErr.errInvalidToken ∨
      GoErr.errInvalidToken = GoErr.errExpiredToken) :=
  ⟨(verify_error_classification ⟨sampleKey⟩ ⟨sampleKey⟩
        (.tok .HS256 ⟨0, "u", "r", 0, 0⟩
          ⟨.HS256, sampleKey, ⟨0, "u", "r", 0, 0⟩⟩)
        (.malformed "") 1).2.1.mpr
      ⟨⟨.HS256, ⟨0, "u", "r", 0, 0⟩, rfl, rfl⟩, 0, rfl, by decide⟩,
   (verify_error_classification ⟨sampleKey⟩ ⟨sampleKey⟩
        (.malformed "") (.ct sampleKey ⟨0, "u", "r", 0, 0⟩) 1).2.2.2.mpr
      ⟨⟨⟨0, "u", "r", 0, 0⟩, rfl, by decide⟩, 0, rfl, by decide⟩,
   (verify_error_classification ⟨sampleKey⟩ ⟨sampleKey⟩
        (.malformed "") (.malformed "") 1).1 .errInvalidToken
      (by rw [jwt_verify_malformed])⟩

/-- C7: a token created under one key never verifies under a maker holding
a different key; both makers fail with `ErrInvalidToken`. -/
theorem cross_key_verify_fails (k1 k2 : Key) (h : k1 ≠ k2)
    (username role : String) (duration : Int) (i : Nat) (now t : Int) :
    JWTMaker.VerifyToken ⟨k2⟩
        (JWTMaker.CreateToken ⟨k1⟩ username role duration (.ok i) now).1 t =
      (none, some .errInvalidToken) ∧
    PasetoMaker.VerifyToken ⟨k2⟩
        (PasetoMaker.CreateToken ⟨k1⟩ username role duration (.ok i) now).1 t =
      (none, some .errInvalidToken) := by
  constructor
  · rw [jwt_create_ok]
    simp [jwt_verify_eval, Alg.isHMAC, Sig.mk.injEq, h]
  · by_cases hk : (k1 : Key).length = KeySize
    · rw [paseto_create_ok ⟨k1⟩ username role duration i now hk]
      simp [paseto_verify_eval, h]
    · rw [paseto_create_badkey ⟨k1⟩ username role duration i now hk]
      exact paseto_verify_malformed ⟨k2⟩ "" t

/-- Witness for C7 at two concrete distinct 32-byte keys. -/
theorem cross_key_verify_fails_witness :
    JWTMaker.VerifyToken ⟨sampleKey2⟩
        (JWTMaker.CreateToken ⟨sampleKey⟩ "u" "r" 5 (.ok 0) 0).1 0 =
      (none, some .errInvalidToken) ∧
    PasetoMaker.VerifyToken ⟨sampleKey2⟩
        (PasetoMaker.CreateToken ⟨sampleKey⟩ "u" "r" 5 (.ok 0) 0).1 0 =
      (none, some .errInvalidToken) :=
  cross_key_verify_fails sampleKey sampleKey2 (by decide) "u" "r" 5 0 0 0

/-- Counterexample to C1 as stated: the 33-byte key `longKey` is a valid
key for `NewPasetoMaker` (construction succeeds and returns a maker), the
duration 1 is positive and identifier generation succeeds, yet
`CreateToken` followed immediately by `VerifyToken` on the returned token
does not succeed: encryption already failed on the over-long key, the
returned token string is empty, and verification rejects it with
`ErrInvalidToken`. -/
theorem create_verify_roundtrip_counterexample :
    NewPasetoMaker longKey = (some ⟨longKey⟩, none) ∧
    (0 : Int) < 1 ∧
    (PasetoMaker.VerifyToken ⟨longKey⟩
        (PasetoMaker.CreateToken ⟨longKey⟩ "u" "r" 1 (.ok 0) 0).1 0).1 = none ∧
    (PasetoMaker.VerifyToken ⟨longKey⟩
        (PasetoMaker.CreateToken ⟨longKey⟩ "u" "r" 1 (.ok 0) 0).1 0).2 =
      some GoErr.errInvalidToken := by
  decide

/-- C1 (amended): create-then-verify round trip.  For every username, role
and positive duration, with identifier generation succeeding, a JWT maker
constructed with any accepted key, and a PASETO maker whose accepted key in
addition has the cipher's exact 32-byte key size (an accepted longer key
makes `CreateToken` itself fail — see the counterexample), `CreateToken`
followed immediately by `VerifyToken` succeeds and returns exactly the
created payload `⟨i, username, role, now, now + duration⟩`: its username
and role are the inputs and its `expiredAt` equals `issuedAt + duration`. -/
theorem create_verify_roundtrip (username role : String) (duration : Int)
    (hd : 0 < duration) (jkey pkey : Key) (jm : JWTMaker) (pm : PasetoMaker)
    (hj : NewJWTMaker jkey = (some jm, none))
    (hp : NewPasetoMaker pkey = (some pm, none))
    (hplen : pkey.length = KeySize) (i : Nat) (now : Int) :
    jm.VerifyToken (jm.CreateToken username role duration (.ok i) now).1 now =
      (some ⟨i, username, role, now, now + duration⟩, none) ∧
    pm.VerifyToken (pm.CreateToken username role duration (.ok i) now).1 now =
      (some ⟨i, username, role, now, now + duration⟩, none) := by
  have hexp : ¬ ((⟨i, username, role, now, now + duration⟩ : Payload).expiredAt < now) := by
    show ¬ (now + duration < now)
    omega
  have hjm : jm = ⟨jkey⟩ := by
    unfold NewJWTMaker at hj
    split at hj
    · simp at hj
    · exact (Option.some.inj (congrArg Prod.fst hj)).symm
  have hpm : pm = ⟨pkey⟩ := by
    unfold NewPasetoMaker at hp
    split at hp
    · simp at hp
    · exact (Option.some.inj (congrArg Prod.fst hp)).symm
  subst hjm
  subst hpm
  constructor
  · rw [jwt_create_ok, jwt_verify_eval]
    rw [if_pos rfl, if_pos (show Alg.HS256.isHMAC = true from rfl), if_neg hexp]
  · rw [paseto_create_ok ⟨pkey⟩ username role duration i now hplen,
      paseto_verify_eval]
    rw [if_pos ⟨hplen, rfl⟩, if_neg hexp]

/-- Witness for the amended C1 at a concrete 32-byte key, username "u",
role "r", duration 5, creation time 0. -/
theorem create_verify_roundtrip_witness :
    JWTMaker.VerifyToken ⟨sampleKey⟩
        (JWTMaker.CreateToken ⟨sampleKey⟩ "u" "r" 5 (.ok 0) 0).1 0 =
      (some ⟨0, "u", "r", 0, 5⟩, none) ∧
    PasetoMaker.VerifyToken ⟨sampleKey⟩
        (PasetoMaker.CreateToken ⟨sampleKey⟩ "u" "r" 5 (.ok 0) 0).1 0 =
      (some ⟨0, "u", "r", 0, 5⟩, none) :=
  create_verify_roundtrip "u" "r" 5 (by decide) sampleKey sampleKey
    ⟨sampleKey⟩ ⟨sampleKey⟩ (by decide) (by decide) (by decide) 0 0

/-- Counterexample to C4 as stated: a token created with duration 0 and
verified immediately — at the very creation instant — verifies
successfully on both makers (validity is inclusive of `expiredAt`, and no
time has passed), rather than yielding `ErrExpiredToken`. -/
theorem zero_duration_counterexample :
    JWTMaker.VerifyToken ⟨sampleKey⟩
        (JWTMaker.CreateToken ⟨sampleKey⟩ "u" "r" 0 (.ok 0) 0).1 0 =
      (some ⟨0, "u", "r", 0, 0⟩, none) ∧
    PasetoMaker.VerifyToken ⟨sampleKey⟩
        (PasetoMaker.CreateToken ⟨sampleKey⟩ "u" "r" 0 (.ok 0) 0).1 0 =
      (some ⟨0, "u", "r", 0, 0⟩, none) := by
  decide

/-- C4 (amended): a token created with duration zero or negative is
rejected with `ErrExpiredToken` by verification at any time strictly after
the creation instant.  (At the creation instant itself a zero-duration
token still verifies — see the counterexample; and for the encrypted maker
the key must have the cipher's key size so that creation produces a token
at all.) -/
theorem nonpositive_duration_expired (username role : String) (duration : Int)
    (hd : duration ≤ 0) (jm : JWTMaker) (pkey : Key)
    (hplen : pkey.length = KeySize) (i : Nat) (now t : Int) (ht : now < t) :
    jm.VerifyToken (jm.CreateToken username role duration (.ok i) now).1 t =
      (none, some .errExpiredToken) ∧
    PasetoMaker.VerifyToken ⟨pkey⟩
        (PasetoMaker.CreateToken ⟨pkey⟩ username role duration (.ok i) now).1 t =
      (none, some .errExpiredToken) := by
  have hexp : (⟨i, username, role, now, now + duration⟩ : Payload).expiredAt < t := by
    show now + duration < t
    omega
  constructor
  · rw [jwt_create_ok, jwt_verify_eval]
    rw [if_pos rfl, if_pos (show Alg.HS256.isHMAC = true from rfl), if_pos hexp]
  · rw [paseto_create_ok ⟨pkey⟩ username role duration i now hplen,
      paseto_verify_eval]
    rw [if_pos ⟨hplen, rfl⟩, if_pos hexp]

/-- Witness for the amended C4: a zero-duration token created at time 0 is
rejected as expired at time 1 by both makers. -/
theorem nonpositive_duration_expired_witness :
    JWTMaker.VerifyToken ⟨sampleKey⟩
        (JWTMaker.CreateToken ⟨sampleKey⟩ "u" "r" 0 (.ok 0) 0).1 1 =
      (none, some .errExpiredToken) ∧
    PasetoMaker.VerifyToken ⟨sampleKey⟩
        (PasetoMaker.CreateToken ⟨sampleKey⟩ "u" "r" 0 (.ok 0) 0).1 1 =
      (none, some .errExpiredToken) :=
  nonpositive_duration_expired "u" "r" 0 (by decide) ⟨sampleKey⟩ sampleKey
    (by decide) 0 0 1 (by decide)

end TokenPkg
